import Mathlib

/-!
Verification of the snapshot-window signal engine of `src/app.py`
(class `CryptoAnalyzer` of the Crypto-dashboard repository).

The Python code is shallowly embedded: Python ints become `ℕ`/`ℤ`, Python
float arithmetic (ratios, percentages) is modelled with `ℚ`, Python `None`
becomes `Option`, and effectful operations (file I/O, the network fetch)
take their outcome explicitly as a parameter.  The persisted JSON file is
modelled by the abstract `FileState`; the only parts of its content the
code ever reads back are the two snapshot slots and the timestamp.
-/

/-- One telemetry reading, as built by `CryptoAnalyzer.fetch_node_data`
(src/app.py lines 71–78). -/
structure NodeSnapshot where
  timestamp : String
  total_nodes : ℕ
  active_nodes : ℕ
  tor_nodes : ℕ
  tor_percentage : ℚ
  active_ratio : ℚ
deriving DecidableEq

/-- The analyzer's in-memory state: the two-slot snapshot window
(`self.current_data`, `self.previous_data` of src/app.py). -/
structure CryptoAnalyzer where
  current_data : Option NodeSnapshot
  previous_data : Option NodeSnapshot
deriving DecidableEq

/-- The state of the persisted JSON file (`network_data.json`): absent,
present but unreadable (`open`/read raises), present but not valid JSON
(`json.load` raises), or well formed with the two slots and the
`last_updated` timestamp. -/
inductive FileState where
  | absent
  | unreadable
  | malformed
  | wellFormed (current_data previous_data : Option NodeSnapshot) (last_updated : String)
deriving DecidableEq

/-- The outcome of the file write attempted by `save_node_data`: either the
`json.dump` completes, or an I/O error interrupts it after `open(..., 'w')`
has already truncated the file (the code writes straight to the target
file, so an interrupted dump leaves a proper prefix of a JSON object,
which is not valid JSON). -/
inductive WriteOutcome where
  | ok
  | failDuringWrite
deriving DecidableEq

/-- `CryptoAnalyzer.load_node_data` (src/app.py lines 18–31): reads the
persisted window; the bare `except:` turns any read or parse failure into
the empty window, and a missing file also yields the empty window. -/
def CryptoAnalyzer.load_node_data (file : FileState) : CryptoAnalyzer :=
  match file with
  | FileState.wellFormed current_data previous_data _ =>
      { current_data := current_data, previous_data := previous_data }
  | _ => { current_data := none, previous_data := none }

/-- `CryptoAnalyzer.save_node_data` (src/app.py lines 33–44): writes the
window plus `last_updated` directly to the target file.  The returned
`Bool` records whether an error was reported (`st.error`); the bare
`except` means the function itself never raises.  On `ok` the file holds
the window; on `failDuringWrite` the file is left truncated mid-dump,
hence malformed. -/
def CryptoAnalyzer.save_node_data (a : CryptoAnalyzer) (now : String)
    (_file : FileState) (w : WriteOutcome) : FileState × Bool :=
  match w with
  | WriteOutcome.ok => (FileState.wellFormed a.current_data a.previous_data now, false)
  | WriteOutcome.failDuringWrite => (FileState.malformed, true)

/-- One entry of the fetched payload's `nodes` mapping, reduced to the two
facts the loop of `fetch_node_data` extracts from it: whether `node_info`
is a non-empty list (the node is counted active) and whether the string
`.onion` occurs in the address or in `str(node_info)` (the node is
counted as a Tor node). -/
structure RawNode where
  is_active : Bool
  has_onion : Bool
deriving DecidableEq

/-- The parsed JSON payload of the Bitnodes snapshot endpoint, as consumed
by `fetch_node_data`: the `total_nodes` field and the `nodes` mapping. -/
structure BitnodesPayload where
  total_nodes : ℕ
  nodes : List RawNode
deriving DecidableEq

/-- The outcome of the single bounded HTTP GET of `fetch_node_data`:
either some failure (network error, timeout, bad status, malformed JSON —
all caught by the `except` clause) or a parsed payload. -/
inductive FetchOutcome where
  | failure
  | success (data : BitnodesPayload)
deriving DecidableEq

/-- `CryptoAnalyzer.fetch_node_data` (src/app.py lines 46–81): on any
failure returns `None`; on success counts active and Tor nodes and builds
the snapshot, guarding both divisions by `total_nodes > 0`. -/
def fetch_node_data (now : String) (o : FetchOutcome) : Option NodeSnapshot :=
  match o with
  | FetchOutcome.failure => none
  | FetchOutcome.success data =>
      let total_nodes := data.total_nodes
      let active_nodes := data.nodes.countP (fun node => node.is_active)
      let tor_nodes := data.nodes.countP (fun node => node.has_onion)
      let tor_percentage : ℚ :=
        if total_nodes > 0 then ((tor_nodes : ℚ) / (total_nodes : ℚ)) * 100 else 0
      let active_ratio : ℚ :=
        if total_nodes > 0 then (active_nodes : ℚ) / (total_nodes : ℚ) else 0
      some { timestamp := now, total_nodes := total_nodes, active_nodes := active_nodes,
             tor_nodes := tor_nodes, tor_percentage := tor_percentage,
             active_ratio := active_ratio }

/-- `CryptoAnalyzer.update_node_data` (src/app.py lines 83–94): calls the
fetcher once; on failure returns `False` leaving window and file alone; on
success shifts `current` to `previous`, installs the new snapshot as
`current`, saves, and returns `True` regardless of the save outcome. -/
def CryptoAnalyzer.update_node_data (a : CryptoAnalyzer) (now : String)
    (o : FetchOutcome) (file : FileState) (w : WriteOutcome) :
    CryptoAnalyzer × FileState × Bool :=
  match fetch_node_data now o with
  | none => (a, file, false)
  | some new_data =>
      let rotated : CryptoAnalyzer :=
        { current_data := some new_data, previous_data := a.current_data }
      let saved := rotated.save_node_data now file w
      (rotated, saved.1, true)

/-- Python's `str.startswith`, here on a single candidate: the argument is
a prefix of the subject string. -/
def pyStartsWith (s pre : String) : Bool :=
  pre.data.isPrefixOf s.data

/-- Factor 1 of `calculate_high_confidence_signal` (src/app.py lines
122–128): absolute Tor change magnitude. -/
def magnitudeFactor (tor_change : ℤ) : String :=
  if |tor_change| > 50 then "LARGE_TOR_CHANGE"
  else if |tor_change| > 25 then "MEDIUM_TOR_CHANGE"
  else "SMALL_TOR_CHANGE"

/-- Factor 2 (src/app.py lines 130–136): percentage change magnitude. -/
def percentageFactor (percentage_change : ℚ) : String :=
  if |percentage_change| > 5 then "LARGE_PERCENTAGE_CHANGE"
  else if |percentage_change| > 2.5 then "MEDIUM_PERCENTAGE_CHANGE"
  else "SMALL_PERCENTAGE_CHANGE"

/-- Factor 3 (src/app.py lines 138–144): network size. -/
def networkFactor (current_total : ℕ) : String :=
  if current_total > 10000 then "LARGE_NETWORK"
  else if current_total > 8000 then "MEDIUM_NETWORK"
  else "SMALL_NETWORK"

/-- Factor 4 (src/app.py lines 146–152): active ratio health.  Python's
chained comparison `0.7 <= active_ratio <= 0.9` is the conjunction. -/
def ratioFactor (active_ratio : ℚ) : String :=
  if 0.7 ≤ active_ratio ∧ active_ratio ≤ 0.9 then "HEALTHY_ACTIVE_RATIO"
  else if 0.6 ≤ active_ratio ∧ active_ratio ≤ 0.95 then "MODERATE_ACTIVE_RATIO"
  else "POOR_ACTIVE_RATIO"

/-- The predicate of line 156 of src/app.py:
`factor.startswith(('LARGE', 'HEALTHY'))`. -/
def hiTag (factor : String) : Bool :=
  pyStartsWith factor "LARGE" || pyStartsWith factor "HEALTHY"

/-- The predicate of line 158 of src/app.py:
`factor.startswith(('MEDIUM', 'MODERATE'))`. -/
def medTag (factor : String) : Bool :=
  pyStartsWith factor "MEDIUM" || pyStartsWith factor "MODERATE"

/-- Lines 160–165 of src/app.py: the aggregate confidence from the two
counts. -/
def overallConfidence (high_confidence_count medium_confidence_count : ℕ) : String :=
  if high_confidence_count ≥ 3 then "HIGH"
  else if high_confidence_count + medium_confidence_count ≥ 3 then "MEDIUM"
  else "LOW"

/-- The priority-ordered decision table of src/app.py lines 169–202,
giving `(signal, bias, reasoning)`.  Python's `confidence in ["MEDIUM",
"HIGH"]` is the disjunction of the two equalities.  The reasoning strings
embed the raw numbers via `toString`; Python's `:+,`/`:+.1f` numeric
formatting (sign, thousands separators, one decimal) is not reproduced,
and no claim concerns the reasoning text. -/
def decisionTable (tor_change : ℤ) (percentage_change : ℚ) (confidence : String) :
    String × String × String :=
  if tor_change > 50 ∧ percentage_change > 5 ∧ confidence = "HIGH" then
    ("STRONG SELL", "HIGHLY BEARISH",
      "Large Tor increase (" ++ toString tor_change ++ " nodes, "
        ++ toString percentage_change ++ "%) with high confidence factors")
  else if tor_change < -50 ∧ percentage_change < -5 ∧ confidence = "HIGH" then
    ("STRONG BUY", "HIGHLY BULLISH",
      "Large Tor decrease (" ++ toString tor_change ++ " nodes, "
        ++ toString percentage_change ++ "%) with high confidence factors")
  else if tor_change > 25 ∧ percentage_change > 2.5
      ∧ (confidence = "MEDIUM" ∨ confidence = "HIGH") then
    ("SELL", "BEARISH",
      "Moderate Tor increase (" ++ toString tor_change ++ " nodes, "
        ++ toString percentage_change ++ "%) with medium confidence")
  else if tor_change < -25 ∧ percentage_change < -2.5
      ∧ (confidence = "MEDIUM" ∨ confidence = "HIGH") then
    ("BUY", "BULLISH",
      "Moderate Tor decrease (" ++ toString tor_change ++ " nodes, "
        ++ toString percentage_change ++ "%) with medium confidence")
  else if tor_change > 10 then
    ("SLIGHT SELL", "SLIGHTLY BEARISH",
      "Small Tor increase (" ++ toString tor_change ++ " nodes) - low confidence signal")
  else if tor_change < -10 then
    ("SLIGHT BUY", "SLIGHTLY BULLISH",
      "Small Tor decrease (" ++ toString tor_change ++ " nodes) - low confidence signal")
  else
    ("HOLD", "NEUTRAL",
      "Minimal Tor change (" ++ toString tor_change ++ " nodes) - no clear signal")

/-- The dictionary returned by `calculate_high_confidence_signal`.  The
insufficient-data branch (lines 99–108) omits the keys
`confidence_factors`, `total_nodes` and `active_ratio`, so those three
fields are `Option`s, `none` exactly when the key is absent. -/
structure SignalResult where
  current_tor : ℕ
  previous_tor : ℕ
  tor_change : ℤ
  percentage_change : ℚ
  signal : String
  confidence : String
  bias : String
  reasoning : String
  confidence_factors : Option (List String)
  total_nodes : Option ℕ
  active_ratio : Option ℚ
deriving DecidableEq

/-- `CryptoAnalyzer.calculate_high_confidence_signal` (src/app.py lines
96–216). -/
def CryptoAnalyzer.calculate_high_confidence_signal (a : CryptoAnalyzer) : SignalResult :=
  match a.current_data, a.previous_data with
  | some current_data, some previous_data =>
      let current_tor := current_data.tor_nodes
      let previous_tor := previous_data.tor_nodes
      let current_total := current_data.total_nodes
      let active_ratio := current_data.active_ratio
      let tor_change : ℤ := (current_tor : ℤ) - (previous_tor : ℤ)
      let percentage_change : ℚ :=
        if previous_tor > 0 then ((tor_change : ℚ) / (previous_tor : ℚ)) * 100 else 0
      let confidence_factors : List String :=
        [magnitudeFactor tor_change, percentageFactor percentage_change,
         networkFactor current_total, ratioFactor active_ratio]
      let high_confidence_count := confidence_factors.countP hiTag
      let medium_confidence_count := confidence_factors.countP medTag
      let confidence := overallConfidence high_confidence_count medium_confidence_count
      let sbr := decisionTable tor_change percentage_change confidence
      { current_tor := current_tor, previous_tor := previous_tor,
        tor_change := tor_change, percentage_change := percentage_change,
        signal := sbr.1, confidence := confidence, bias := sbr.2.1,
        reasoning := sbr.2.2, confidence_factors := some confidence_factors,
        total_nodes := some current_total, active_ratio := some active_ratio }
  | c, p =>
      { current_tor := match c with | some d => d.tor_nodes | none => 0,
        previous_tor := match p with | some d => d.tor_nodes | none => 0,
        tor_change := 0, percentage_change := 0,
        signal := "INSUFFICIENT_DATA", confidence := "LOW", bias := "NEED MORE DATA",
        reasoning := "Need at least 2 data points for comparison",
        confidence_factors := none, total_nodes := none, active_ratio := none }

/-- The dictionary returned by `calculate_network_signal` (src/app.py
lines 218–247). -/
structure NetworkResult where
  current_total : ℕ
  previous_total : ℕ
  total_change : ℤ
  network_signal : String
deriving DecidableEq

/-- `CryptoAnalyzer.calculate_network_signal` (src/app.py lines 218–247). -/
def CryptoAnalyzer.calculate_network_signal (a : CryptoAnalyzer) : NetworkResult :=
  match a.current_data, a.previous_data with
  | some current_data, some previous_data =>
      let current_total := current_data.total_nodes
      let previous_total := previous_data.total_nodes
      let total_change : ℤ := (current_total : ℤ) - (previous_total : ℤ)
      let network_signal :=
        if total_change > 100 then "NETWORK STRONG GROWTH"
        else if total_change > 50 then "NETWORK GROWING"
        else if total_change > 0 then "NETWORK STABLE"
        else "NETWORK SHRINKING"
      { current_total := current_total, previous_total := previous_total,
        total_change := total_change, network_signal := network_signal }
  | c, p =>
      { current_total := match c with | some d => d.total_nodes | none => 0,
        previous_total := match p with | some d => d.total_nodes | none => 0,
        total_change := 0, network_signal := "INSUFFICIENT_DATA" }

/-- The confidence order LOW < MEDIUM < HIGH, as a rank. -/
def confRank (confidence : String) : ℕ :=
  if confidence = "HIGH" then 2 else if confidence = "MEDIUM" then 1 else 0

/-- Scenario A of the spec (current snapshot): 9100 total nodes, 1060 Tor
nodes, active ratio 0.8. -/
def scenarioA_current : NodeSnapshot :=
  { timestamp := "tA1", total_nodes := 9100, active_nodes := 7280, tor_nodes := 1060,
    tor_percentage := 1060 / 9100 * 100, active_ratio := 0.8 }

/-- Scenario A of the spec (previous snapshot): 9000 total nodes, 1000 Tor
nodes. -/
def scenarioA_previous : NodeSnapshot :=
  { timestamp := "tA0", total_nodes := 9000, active_nodes := 7200, tor_nodes := 1000,
    tor_percentage := 1000 / 9000 * 100, active_ratio := 0.8 }

/-- A current snapshot identical to Scenario A except that the Tor count
did not move from its previous value of 1000. -/
def scenarioFlat_current : NodeSnapshot :=
  { timestamp := "tF1", total_nodes := 9100, active_nodes := 7280, tor_nodes := 1000,
    tor_percentage := 1000 / 9100 * 100, active_ratio := 0.8 }

/-- Claim C3: whenever at least one window slot is missing,
`calculate_high_confidence_signal` returns the INSUFFICIENT_DATA result:
signal INSUFFICIENT_DATA, confidence LOW, bias NEED MORE DATA,
`tor_change = 0`, with `current_tor`/`previous_tor` reporting whichever
snapshot exists (0 when absent), and the classifier-only keys
(`confidence_factors`, `total_nodes`, `active_ratio`) absent. -/
theorem insufficient_data_result :
    (∀ (d : NodeSnapshot),
      CryptoAnalyzer.calculate_high_confidence_signal
          { current_data := some d, previous_data := none } =
        { current_tor := d.tor_nodes, previous_tor := 0, tor_change := 0,
          percentage_change := 0, signal := "INSUFFICIENT_DATA", confidence := "LOW",
          bias := "NEED MORE DATA",
          reasoning := "Need at least 2 data points for comparison",
          confidence_factors := none, total_nodes := none, active_ratio := none }) ∧
    (∀ (d : NodeSnapshot),
      CryptoAnalyzer.calculate_high_confidence_signal
          { current_data := none, previous_data := some d } =
        { current_tor := 0, previous_tor := d.tor_nodes, tor_change := 0,
          percentage_change := 0, signal := "INSUFFICIENT_DATA", confidence := "LOW",
          bias := "NEED MORE DATA",
          reasoning := "Need at least 2 data points for comparison",
          confidence_factors := none, total_nodes := none, active_ratio := none }) ∧
    (CryptoAnalyzer.calculate_high_confidence_signal
        { current_data := none, previous_data := none } =
      { current_tor := 0, previous_tor := 0, tor_change := 0,
        percentage_change := 0, signal := "INSUFFICIENT_DATA", confidence := "LOW",
        bias := "NEED MORE DATA",
        reasoning := "Need at least 2 data points for comparison",
        confidence_factors := none, total_nodes := none, active_ratio := none }) :=
  ⟨fun _ => rfl, fun _ => rfl, rfl⟩

/-- Claim C4: `update_node_data` consumes a single fetch outcome; a failed
fetch leaves the window (and file) unchanged and returns success `false`;
a successful fetch returns success `true` with the new snapshot as
`current` and the pre-rotate `current` as `previous` (the old `previous`
appears nowhere in the result, and the window holds at most the two
slots by construction). -/
theorem update_rotates_window :
    (∀ (a : CryptoAnalyzer) (now : String) (file : FileState) (w : WriteOutcome),
      a.update_node_data now FetchOutcome.failure file w = (a, file, false)) ∧
    (∀ (a : CryptoAnalyzer) (now : String) (payload : BitnodesPayload)
        (file : FileState) (w : WriteOutcome),
      (a.update_node_data now (FetchOutcome.success payload) file w).1.current_data
          = fetch_node_data now (FetchOutcome.success payload) ∧
      (a.update_node_data now (FetchOutcome.success payload) file w).1.previous_data
          = a.current_data ∧
      (a.update_node_data now (FetchOutcome.success payload) file w).2.2 = true) :=
  ⟨fun _ _ _ _ => rfl, fun _ _ _ _ _ => ⟨rfl, rfl, rfl⟩⟩

/-- Claim C9: `load_node_data` returns the empty window for an absent,
unreadable or malformed file — the bare `except:` means no failure ever
reaches the caller — and returns the stored slots when the file is well
formed. -/
theorem load_recovers_empty_window :
    CryptoAnalyzer.load_node_data FileState.absent =
      { current_data := none, previous_data := none } ∧
    CryptoAnalyzer.load_node_data FileState.unreadable =
      { current_data := none, previous_data := none } ∧
    CryptoAnalyzer.load_node_data FileState.malformed =
      { current_data := none, previous_data := none } ∧
    (∀ (c p : Option NodeSnapshot) (t : String),
      CryptoAnalyzer.load_node_data (FileState.wellFormed c p t) =
        { current_data := c, previous_data := p }) :=
  ⟨rfl, rfl, rfl, fun _ _ _ => rfl⟩

/-- Claim C8: all zero-denominator cases evaluate to 0.  A payload with
`total_nodes = 0` yields a snapshot with `tor_percentage = 0` and
`active_ratio = 0` (whatever the `nodes` mapping holds), and a populated
window whose previous snapshot has `tor_nodes = 0` yields
`percentage_change = 0`; both functions are total, so no division error
is possible. -/
theorem zero_denominators_yield_zero :
    (∀ (now : String) (nodes : List RawNode),
      fetch_node_data now (FetchOutcome.success { total_nodes := 0, nodes := nodes }) =
        some { timestamp := now, total_nodes := 0,
               active_nodes := nodes.countP (fun node => node.is_active),
               tor_nodes := nodes.countP (fun node => node.has_onion),
               tor_percentage := 0, active_ratio := 0 }) ∧
    (∀ (c : NodeSnapshot) (ts : String) (tn an : ℕ) (tp ar : ℚ),
      (CryptoAnalyzer.calculate_high_confidence_signal
          { current_data := some c,
            previous_data := some { timestamp := ts, total_nodes := tn,
                                    active_nodes := an, tor_nodes := 0,
                                    tor_percentage := tp, active_ratio := ar } }
        ).percentage_change = 0) :=
  ⟨fun _ _ => rfl, fun _ _ _ _ _ _ => rfl⟩

/-- Counterexample to claim C6: `save_node_data` writes straight to the
target file (`open(..., 'w')` then `json.dump`), not write-then-replace,
so an I/O failure during the dump leaves a truncated, unparseable file:
here a previously well-formed file ends up malformed, and a subsequent
load yields the empty window. -/
theorem save_leaves_malformed_file :
    (CryptoAnalyzer.save_node_data
        { current_data := some scenarioA_current, previous_data := some scenarioA_previous }
        "t2" (FileState.wellFormed (some scenarioA_previous) none "t0")
        WriteOutcome.failDuringWrite).1 = FileState.malformed ∧
    CryptoAnalyzer.load_node_data
        (CryptoAnalyzer.save_node_data
          { current_data := some scenarioA_current, previous_data := some scenarioA_previous }
          "t2" (FileState.wellFormed (some scenarioA_previous) none "t0")
          WriteOutcome.failDuringWrite).1 =
      { current_data := none, previous_data := none } :=
  ⟨rfl, rfl⟩

/-- Claim C6 as amended: `save_node_data` never raises — a completed write
stores the window and reports no error, a failed write is caught and
reported — and a save failure does not roll back the in-memory rotation:
after a successful fetch, `update_node_data` still returns success with
the rotated window even when the save fails.  (The write is direct, not
write-then-replace, so the failed write does leave a malformed file; see
the counterexample.) -/
theorem save_reports_failure_and_keeps_rotation :
    (∀ (a : CryptoAnalyzer) (now : String) (file : FileState),
      a.save_node_data now file WriteOutcome.ok =
        (FileState.wellFormed a.current_data a.previous_data now, false) ∧
      a.save_node_data now file WriteOutcome.failDuringWrite =
        (FileState.malformed, true)) ∧
    (∀ (a : CryptoAnalyzer) (now : String) (payload : BitnodesPayload) (file : FileState),
      (a.update_node_data now (FetchOutcome.success payload) file
          WriteOutcome.failDuringWrite).2.2 = true ∧
      (a.update_node_data now (FetchOutcome.success payload) file
          WriteOutcome.failDuringWrite).1.current_data
        = fetch_node_data now (FetchOutcome.success payload) ∧
      (a.update_node_data now (FetchOutcome.success payload) file
          WriteOutcome.failDuringWrite).1.previous_data = a.current_data) :=
  ⟨fun _ _ _ => ⟨rfl, rfl⟩, fun _ _ _ _ => ⟨rfl, rfl, rfl⟩⟩

/-- Claim C5: `calculate_network_signal` returns INSUFFICIENT_DATA when a
slot is missing; otherwise `total_change = current.total_nodes −
previous.total_nodes` and the chain classifies `> 100` as STRONG GROWTH,
`> 50` as GROWING, `> 0` as STABLE and everything else — including a
change of exactly 0 — as SHRINKING. -/
theorem network_signal_thresholds :
    (∀ (d : NodeSnapshot),
      (CryptoAnalyzer.calculate_network_signal
        { current_data := some d, previous_data := none }).network_signal
        = "INSUFFICIENT_DATA") ∧
    (∀ (d : NodeSnapshot),
      (CryptoAnalyzer.calculate_network_signal
        { current_data := none, previous_data := some d }).network_signal
        = "INSUFFICIENT_DATA") ∧
    ((CryptoAnalyzer.calculate_network_signal
        { current_data := none, previous_data := none }).network_signal
        = "INSUFFICIENT_DATA") ∧
    (∀ (c p : NodeSnapshot),
      (CryptoAnalyzer.calculate_network_signal
          { current_data := some c, previous_data := some p }).total_change
        = (c.total_nodes : ℤ) - (p.total_nodes : ℤ) ∧
      ((CryptoAnalyzer.calculate_network_signal
            { current_data := some c, previous_data := some p }).network_signal
          = "NETWORK STRONG GROWTH" ↔ 100 < (c.total_nodes : ℤ) - (p.total_nodes : ℤ)) ∧
      ((CryptoAnalyzer.calculate_network_signal
            { current_data := some c, previous_data := some p }).network_signal
          = "NETWORK GROWING" ↔
        50 < (c.total_nodes : ℤ) - (p.total_nodes : ℤ)
          ∧ (c.total_nodes : ℤ) - (p.total_nodes : ℤ) ≤ 100) ∧
      ((CryptoAnalyzer.calculate_network_signal
            { current_data := some c, previous_data := some p }).network_signal
          = "NETWORK STABLE" ↔
        0 < (c.total_nodes : ℤ) - (p.total_nodes : ℤ)
          ∧ (c.total_nodes : ℤ) - (p.total_nodes : ℤ) ≤ 50) ∧
      ((CryptoAnalyzer.calculate_network_signal
            { current_data := some c, previous_data := some p }).network_signal
          = "NETWORK SHRINKING" ↔ (c.total_nodes : ℤ) - (p.total_nodes : ℤ) ≤ 0) ∧
      ((c.total_nodes : ℤ) - (p.total_nodes : ℤ) = 0 →
        (CryptoAnalyzer.calculate_network_signal
            { current_data := some c, previous_data := some p }).network_signal
          = "NETWORK SHRINKING")) := by
  refine ⟨fun _ => rfl, fun _ => rfl, rfl, fun c p => ?_⟩
  have hs : (CryptoAnalyzer.calculate_network_signal
      { current_data := some c, previous_data := some p }).network_signal =
      (if (c.total_nodes : ℤ) - (p.total_nodes : ℤ) > 100 then "NETWORK STRONG GROWTH"
       else if (c.total_nodes : ℤ) - (p.total_nodes : ℤ) > 50 then "NETWORK GROWING"
       else if (c.total_nodes : ℤ) - (p.total_nodes : ℤ) > 0 then "NETWORK STABLE"
       else "NETWORK SHRINKING") := rfl
  refine ⟨rfl, ?_⟩
  rw [hs]
  split_ifs with h1 h2 h3
  · exact ⟨iff_of_true rfl h1, iff_of_false (by decide) (fun hx => by omega),
      iff_of_false (by decide) (fun hx => by omega),
      iff_of_false (by decide) (by omega), fun h0 => by omega⟩
  · exact ⟨iff_of_false (by decide) h1, iff_of_true rfl ⟨h2, by omega⟩,
      iff_of_false (by decide) (fun hx => by omega),
      iff_of_false (by decide) (by omega), fun h0 => by omega⟩
  · exact ⟨iff_of_false (by decide) h1, iff_of_false (by decide) (fun hx => by omega),
      iff_of_true rfl ⟨h3, by omega⟩,
      iff_of_false (by decide) (by omega), fun h0 => by omega⟩
  · exact ⟨iff_of_false (by decide) h1, iff_of_false (by decide) (fun hx => by omega),
      iff_of_false (by decide) (fun hx => by omega),
      iff_of_true rfl (by omega), fun h0 => rfl⟩

/-- Claim C1: on a populated window, `(signal, bias)` is exactly what the
priority-ordered decision table yields on the window's `tor_change`,
`percentage_change` and aggregate `confidence`; the table is first-match:
each rule fires exactly when its conditions hold and no earlier rule's
conditions do, and in particular rule 1 beats rule 3 whenever both
match. -/
theorem decision_table_first_match :
    (∀ (c p : NodeSnapshot),
      ((CryptoAnalyzer.calculate_high_confidence_signal
          { current_data := some c, previous_data := some p }).signal,
       (CryptoAnalyzer.calculate_high_confidence_signal
          { current_data := some c, previous_data := some p }).bias) =
        ((decisionTable
            (CryptoAnalyzer.calculate_high_confidence_signal
              { current_data := some c, previous_data := some p }).tor_change
            (CryptoAnalyzer.calculate_high_confidence_signal
              { current_data := some c, previous_data := some p }).percentage_change
            (CryptoAnalyzer.calculate_high_confidence_signal
              { current_data := some c, previous_data := some p }).confidence).1,
         (decisionTable
            (CryptoAnalyzer.calculate_high_confidence_signal
              { current_data := some c, previous_data := some p }).tor_change
            (CryptoAnalyzer.calculate_high_confidence_signal
              { current_data := some c, previous_data := some p }).percentage_change
            (CryptoAnalyzer.calculate_high_confidence_signal
              { current_data := some c, previous_data := some p }).confidence).2.1)) ∧
    (∀ (tc : ℤ) (pc : ℚ) (conf : String),
      ((tc > 50 ∧ pc > 5 ∧ conf = "HIGH") →
        ((decisionTable tc pc conf).1, (decisionTable tc pc conf).2.1)
          = ("STRONG SELL", "HIGHLY BEARISH")) ∧
      (¬(tc > 50 ∧ pc > 5 ∧ conf = "HIGH") ∧
          (tc < -50 ∧ pc < -5 ∧ conf = "HIGH") →
        ((decisionTable tc pc conf).1, (decisionTable tc pc conf).2.1)
          = ("STRONG BUY", "HIGHLY BULLISH")) ∧
      (¬(tc > 50 ∧ pc > 5 ∧ conf = "HIGH") ∧
          ¬(tc < -50 ∧ pc < -5 ∧ conf = "HIGH") ∧
          (tc > 25 ∧ pc > 2.5 ∧ (conf = "MEDIUM" ∨ conf = "HIGH")) →
        ((decisionTable tc pc conf).1, (decisionTable tc pc conf).2.1)
          = ("SELL", "BEARISH")) ∧
      (¬(tc > 50 ∧ pc > 5 ∧ conf = "HIGH") ∧
          ¬(tc < -50 ∧ pc < -5 ∧ conf = "HIGH") ∧
          ¬(tc > 25 ∧ pc > 2.5 ∧ (conf = "MEDIUM" ∨ conf = "HIGH")) ∧
          (tc < -25 ∧ pc < -2.5 ∧ (conf = "MEDIUM" ∨ conf = "HIGH")) →
        ((decisionTable tc pc conf).1, (decisionTable tc pc conf).2.1)
          = ("BUY", "BULLISH")) ∧
      (¬(tc > 50 ∧ pc > 5 ∧ conf = "HIGH") ∧
          ¬(tc < -50 ∧ pc < -5 ∧ conf = "HIGH") ∧
          ¬(tc > 25 ∧ pc > 2.5 ∧ (conf = "MEDIUM" ∨ conf = "HIGH")) ∧
          ¬(tc < -25 ∧ pc < -2.5 ∧ (conf = "MEDIUM" ∨ conf = "HIGH")) ∧
          tc > 10 →
        ((decisionTable tc pc conf).1, (decisionTable tc pc conf).2.1)
          = ("SLIGHT SELL", "SLIGHTLY BEARISH")) ∧
      (¬(tc > 50 ∧ pc > 5 ∧ conf = "HIGH") ∧
          ¬(tc < -50 ∧ pc < -5 ∧ conf = "HIGH") ∧
          ¬(tc > 25 ∧ pc > 2.5 ∧ (conf = "MEDIUM" ∨ conf = "HIGH")) ∧
          ¬(tc < -25 ∧ pc < -2.5 ∧ (conf = "MEDIUM" ∨ conf = "HIGH")) ∧
          ¬(tc > 10) ∧ tc < -10 →
        ((decisionTable tc pc conf).1, (decisionTable tc pc conf).2.1)
          = ("SLIGHT BUY", "SLIGHTLY BULLISH")) ∧
      (¬(tc > 50 ∧ pc > 5 ∧ conf = "HIGH") ∧
          ¬(tc < -50 ∧ pc < -5 ∧ conf = "HIGH") ∧
          ¬(tc > 25 ∧ pc > 2.5 ∧ (conf = "MEDIUM" ∨ conf = "HIGH")) ∧
          ¬(tc < -25 ∧ pc < -2.5 ∧ (conf = "MEDIUM" ∨ conf = "HIGH")) ∧
          ¬(tc > 10) ∧ ¬(tc < -10) →
        ((decisionTable tc pc conf).1, (decisionTable tc pc conf).2.1)
          = ("HOLD", "NEUTRAL")) ∧
      ((tc > 50 ∧ pc > 5 ∧ conf = "HIGH") ∧
          (tc > 25 ∧ pc > 2.5 ∧ (conf = "MEDIUM" ∨ conf = "HIGH")) →
        ((decisionTable tc pc conf).1, (decisionTable tc pc conf).2.1)
          = ("STRONG SELL", "HIGHLY BEARISH"))) := by
  refine ⟨fun c p => rfl, fun tc pc conf =>
    ⟨?_, ?_, ?_, ?_, ?_, ?_, ?_, ?_⟩⟩
  · intro h1
    unfold decisionTable
    rw [if_pos h1]
  · rintro ⟨h1, h2⟩
    unfold decisionTable
    rw [if_neg h1, if_pos h2]
  · rintro ⟨h1, h2, h3⟩
    unfold decisionTable
    rw [if_neg h1, if_neg h2, if_pos h3]
  · rintro ⟨h1, h2, h3, h4⟩
    unfold decisionTable
    rw [if_neg h1, if_neg h2, if_neg h3, if_pos h4]
  · rintro ⟨h1, h2, h3, h4, h5⟩
    unfold decisionTable
    rw [if_neg h1, if_neg h2, if_neg h3, if_neg h4, if_pos h5]
  · rintro ⟨h1, h2, h3, h4, h5, h6⟩
    unfold decisionTable
    rw [if_neg h1, if_neg h2, if_neg h3, if_neg h4, if_neg h5, if_pos h6]
  · rintro ⟨h1, h2, h3, h4, h5, h6⟩
    unfold decisionTable
    rw [if_neg h1, if_neg h2, if_neg h3, if_neg h4, if_neg h5, if_neg h6]
  · rintro ⟨h1, _⟩
    unfold decisionTable
    rw [if_pos h1]

lemma magnitudeFactor_eq_large (tc : ℤ) :
    magnitudeFactor tc = "LARGE_TOR_CHANGE" ↔ 50 < |tc| := by
  unfold magnitudeFactor
  split_ifs with h1 h2
  · exact iff_of_true rfl h1
  · exact iff_of_false (by decide) h1
  · exact iff_of_false (by decide) h1

lemma magnitudeFactor_eq_medium (tc : ℤ) :
    magnitudeFactor tc = "MEDIUM_TOR_CHANGE" ↔ 25 < |tc| ∧ |tc| ≤ 50 := by
  unfold magnitudeFactor
  split_ifs with h1 h2
  · exact iff_of_false (by decide) (fun hx => by linarith [hx.2])
  · exact iff_of_true rfl ⟨h2, not_lt.mp h1⟩
  · exact iff_of_false (by decide) (fun hx => h2 hx.1)

lemma magnitudeFactor_eq_small (tc : ℤ) :
    magnitudeFactor tc = "SMALL_TOR_CHANGE" ↔ |tc| ≤ 25 := by
  unfold magnitudeFactor
  split_ifs with h1 h2
  · exact iff_of_false (by decide) (fun hx => by linarith)
  · exact iff_of_false (by decide) (fun hx => by linarith)
  · exact iff_of_true rfl (not_lt.mp h2)

lemma percentageFactor_eq_large (q : ℚ) :
    percentageFactor q = "LARGE_PERCENTAGE_CHANGE" ↔ 5 < |q| := by
  unfold percentageFactor
  split_ifs with h1 h2
  · exact iff_of_true rfl h1
  · exact iff_of_false (by decide) h1
  · exact iff_of_false (by decide) h1

lemma percentageFactor_eq_medium (q : ℚ) :
    percentageFactor q = "MEDIUM_PERCENTAGE_CHANGE" ↔ 2.5 < |q| ∧ |q| ≤ 5 := by
  unfold percentageFactor
  split_ifs with h1 h2
  · exact iff_of_false (by decide) (fun hx => by linarith [hx.2])
  · exact iff_of_true rfl ⟨h2, not_lt.mp h1⟩
  · exact iff_of_false (by decide) (fun hx => h2 hx.1)

lemma percentageFactor_eq_small (q : ℚ) :
    percentageFactor q = "SMALL_PERCENTAGE_CHANGE" ↔ |q| ≤ 2.5 := by
  unfold percentageFactor
  split_ifs with h1 h2
  · exact iff_of_false (by decide) (fun hx => by linarith)
  · exact iff_of_false (by decide) (fun hx => by linarith)
  · exact iff_of_true rfl (not_lt.mp h2)

lemma networkFactor_eq_large (n : ℕ) :
    networkFactor n = "LARGE_NETWORK" ↔ 10000 < n := by
  unfold networkFactor
  split_ifs with h1 h2
  · exact iff_of_true rfl h1
  · exact iff_of_false (by decide) h1
  · exact iff_of_false (by decide) h1

lemma networkFactor_eq_medium (n : ℕ) :
    networkFactor n = "MEDIUM_NETWORK" ↔ 8000 < n ∧ n ≤ 10000 := by
  unfold networkFactor
  split_ifs with h1 h2
  · exact iff_of_false (by decide) (fun hx => by omega)
  · exact iff_of_true rfl ⟨h2, not_lt.mp h1⟩
  · exact iff_of_false (by decide) (fun hx => h2 hx.1)

lemma networkFactor_eq_small (n : ℕ) :
    networkFactor n = "SMALL_NETWORK" ↔ n ≤ 8000 := by
  unfold networkFactor
  split_ifs with h1 h2
  · exact iff_of_false (by decide) (fun hx => by omega)
  · exact iff_of_false (by decide) (fun hx => by omega)
  · exact iff_of_true rfl (not_lt.mp h2)

lemma ratioFactor_eq_healthy (r : ℚ) :
    ratioFactor r = "HEALTHY_ACTIVE_RATIO" ↔ 0.7 ≤ r ∧ r ≤ 0.9 := by
  unfold ratioFactor
  split_ifs with h1 h2
  · exact iff_of_true rfl h1
  · exact iff_of_false (by decide) h1
  · exact iff_of_false (by decide) h1

lemma ratioFactor_eq_moderate (r : ℚ) :
    ratioFactor r = "MODERATE_ACTIVE_RATIO" ↔
      (0.6 ≤ r ∧ r ≤ 0.95) ∧ ¬(0.7 ≤ r ∧ r ≤ 0.9) := by
  unfold ratioFactor
  split_ifs with h1 h2
  · exact iff_of_false (by decide) (fun hx => hx.2 h1)
  · exact iff_of_true rfl ⟨h2, h1⟩
  · exact iff_of_false (by decide) (fun hx => h2 hx.1)

lemma ratioFactor_eq_poor (r : ℚ) :
    ratioFactor r = "POOR_ACTIVE_RATIO" ↔
      ¬(0.7 ≤ r ∧ r ≤ 0.9) ∧ ¬(0.6 ≤ r ∧ r ≤ 0.95) := by
  unfold ratioFactor
  split_ifs with h1 h2
  · exact iff_of_false (by decide) (fun hx => hx.1 h1)
  · exact iff_of_false (by decide) (fun hx => hx.2 h2)
  · exact iff_of_true rfl ⟨h1, h2⟩

lemma overallConfidence_eq_high (hc mc : ℕ) :
    overallConfidence hc mc = "HIGH" ↔ 3 ≤ hc := by
  unfold overallConfidence
  split_ifs with h1 h2
  · exact iff_of_true rfl h1
  · exact iff_of_false (by decide) h1
  · exact iff_of_false (by decide) h1

lemma overallConfidence_eq_medium (hc mc : ℕ) :
    overallConfidence hc mc = "MEDIUM" ↔ hc < 3 ∧ 3 ≤ hc + mc := by
  unfold overallConfidence
  split_ifs with h1 h2
  · exact iff_of_false (by decide) (fun hx => by omega)
  · exact iff_of_true rfl ⟨by omega, h2⟩
  · exact iff_of_false (by decide) (fun hx => h2 hx.2)

lemma overallConfidence_eq_low (hc mc : ℕ) :
    overallConfidence hc mc = "LOW" ↔ hc + mc < 3 := by
  unfold overallConfidence
  split_ifs with h1 h2
  · exact iff_of_false (by decide) (fun hx => by omega)
  · exact iff_of_false (by decide) (fun hx => by omega)
  · exact iff_of_true rfl (by omega)

/-- Claim C2: on a populated window the signed `tor_change` and guarded
`percentage_change` are as specified, the four factor tags are carried as
an ordered list (magnitude, percentage magnitude, network size, ratio
health, in that order), each factor has exactly the claimed boundary
semantics (strict thresholds for the magnitudes and the network size,
inclusive bounds for the active ratio), and the aggregate confidence is
HIGH iff the LARGE/HEALTHY count is at least 3, else MEDIUM iff that
count plus the MEDIUM/MODERATE count is at least 3, else LOW. -/
theorem confidence_factor_boundaries :
    (∀ (c p : NodeSnapshot),
      (CryptoAnalyzer.calculate_high_confidence_signal
          { current_data := some c, previous_data := some p }).tor_change
        = (c.tor_nodes : ℤ) - (p.tor_nodes : ℤ) ∧
      (CryptoAnalyzer.calculate_high_confidence_signal
          { current_data := some c, previous_data := some p }).percentage_change
        = (if p.tor_nodes > 0
            then ((((c.tor_nodes : ℤ) - (p.tor_nodes : ℤ) : ℤ) : ℚ) / (p.tor_nodes : ℚ)) * 100
            else 0) ∧
      (CryptoAnalyzer.calculate_high_confidence_signal
          { current_data := some c, previous_data := some p }).confidence_factors
        = some
          [magnitudeFactor ((c.tor_nodes : ℤ) - (p.tor_nodes : ℤ)),
           percentageFactor
             (if p.tor_nodes > 0
               then ((((c.tor_nodes : ℤ) - (p.tor_nodes : ℤ) : ℤ) : ℚ) / (p.tor_nodes : ℚ)) * 100
               else 0),
           networkFactor c.total_nodes, ratioFactor c.active_ratio] ∧
      (CryptoAnalyzer.calculate_high_confidence_signal
          { current_data := some c, previous_data := some p }).confidence
        = overallConfidence
            (List.countP hiTag
              [magnitudeFactor ((c.tor_nodes : ℤ) - (p.tor_nodes : ℤ)),
               percentageFactor
                 (if p.tor_nodes > 0
                   then ((((c.tor_nodes : ℤ) - (p.tor_nodes : ℤ) : ℤ) : ℚ) / (p.tor_nodes : ℚ)) * 100
                   else 0),
               networkFactor c.total_nodes, ratioFactor c.active_ratio])
            (List.countP medTag
              [magnitudeFactor ((c.tor_nodes : ℤ) - (p.tor_nodes : ℤ)),
               percentageFactor
                 (if p.tor_nodes > 0
                   then ((((c.tor_nodes : ℤ) - (p.tor_nodes : ℤ) : ℤ) : ℚ) / (p.tor_nodes : ℚ)) * 100
                   else 0),
               networkFactor c.total_nodes, ratioFactor c.active_ratio])) ∧
    (∀ (tc : ℤ),
      (magnitudeFactor tc = "LARGE_TOR_CHANGE" ↔ 50 < |tc|) ∧
      (magnitudeFactor tc = "MEDIUM_TOR_CHANGE" ↔ 25 < |tc| ∧ |tc| ≤ 50) ∧
      (magnitudeFactor tc = "SMALL_TOR_CHANGE" ↔ |tc| ≤ 25)) ∧
    (∀ (q : ℚ),
      (percentageFactor q = "LARGE_PERCENTAGE_CHANGE" ↔ 5 < |q|) ∧
      (percentageFactor q = "MEDIUM_PERCENTAGE_CHANGE" ↔ 2.5 < |q| ∧ |q| ≤ 5) ∧
      (percentageFactor q = "SMALL_PERCENTAGE_CHANGE" ↔ |q| ≤ 2.5)) ∧
    (∀ (n : ℕ),
      (networkFactor n = "LARGE_NETWORK" ↔ 10000 < n) ∧
      (networkFactor n = "MEDIUM_NETWORK" ↔ 8000 < n ∧ n ≤ 10000) ∧
      (networkFactor n = "SMALL_NETWORK" ↔ n ≤ 8000)) ∧
    (∀ (r : ℚ),
      (ratioFactor r = "HEALTHY_ACTIVE_RATIO" ↔ 0.7 ≤ r ∧ r ≤ 0.9) ∧
      (ratioFactor r = "MODERATE_ACTIVE_RATIO" ↔
        (0.6 ≤ r ∧ r ≤ 0.95) ∧ ¬(0.7 ≤ r ∧ r ≤ 0.9)) ∧
      (ratioFactor r = "POOR_ACTIVE_RATIO" ↔
        ¬(0.7 ≤ r ∧ r ≤ 0.9) ∧ ¬(0.6 ≤ r ∧ r ≤ 0.95))) ∧
    (∀ (hc mc : ℕ),
      (overallConfidence hc mc = "HIGH" ↔ 3 ≤ hc) ∧
      (overallConfidence hc mc = "MEDIUM" ↔ hc < 3 ∧ 3 ≤ hc + mc) ∧
      (overallConfidence hc mc = "LOW" ↔ hc + mc < 3)) :=
  ⟨fun _ _ => ⟨rfl, rfl, rfl, rfl⟩,
   fun tc => ⟨magnitudeFactor_eq_large tc, magnitudeFactor_eq_medium tc,
     magnitudeFactor_eq_small tc⟩,
   fun q => ⟨percentageFactor_eq_large q, percentageFactor_eq_medium q,
     percentageFactor_eq_small q⟩,
   fun n => ⟨networkFactor_eq_large n, networkFactor_eq_medium n,
     networkFactor_eq_small n⟩,
   fun r => ⟨ratioFactor_eq_healthy r, ratioFactor_eq_moderate r, ratioFactor_eq_poor r⟩,
   fun hc mc => ⟨overallConfidence_eq_high hc mc, overallConfidence_eq_medium hc mc,
     overallConfidence_eq_low hc mc⟩⟩

/-- Claim C10: on a populated window, `percentage_change` agrees in sign
with `tor_change` whenever `previous.tor_nodes > 0` (positive, negative
and zero each coincide), and is 0 whenever `previous.tor_nodes = 0`; so
the paired directional conditions of decision rules 1-4 never disagree in
direction when the denominator is positive. -/
theorem percentage_change_sign_agreement :
    ∀ (c p : NodeSnapshot),
      (0 < p.tor_nodes →
        ((0 < (CryptoAnalyzer.calculate_high_confidence_signal
              { current_data := some c, previous_data := some p }).percentage_change ↔
          0 < (CryptoAnalyzer.calculate_high_confidence_signal
              { current_data := some c, previous_data := some p }).tor_change) ∧
         ((CryptoAnalyzer.calculate_high_confidence_signal
              { current_data := some c, previous_data := some p }).percentage_change < 0 ↔
          (CryptoAnalyzer.calculate_high_confidence_signal
              { current_data := some c, previous_data := some p }).tor_change < 0) ∧
         ((CryptoAnalyzer.calculate_high_confidence_signal
              { current_data := some c, previous_data := some p }).percentage_change = 0 ↔
          (CryptoAnalyzer.calculate_high_confidence_signal
              { current_data := some c, previous_data := some p }).tor_change = 0))) ∧
      (p.tor_nodes = 0 →
        (CryptoAnalyzer.calculate_high_confidence_signal
            { current_data := some c, previous_data := some p }).percentage_change = 0) := by
  intro c p
  have ht : (CryptoAnalyzer.calculate_high_confidence_signal
      { current_data := some c, previous_data := some p }).tor_change
      = (c.tor_nodes : ℤ) - (p.tor_nodes : ℤ) := rfl
  have hite : (CryptoAnalyzer.calculate_high_confidence_signal
      { current_data := some c, previous_data := some p }).percentage_change
      = (if p.tor_nodes > 0
          then ((((c.tor_nodes : ℤ) - (p.tor_nodes : ℤ) : ℤ) : ℚ) / (p.tor_nodes : ℚ)) * 100
          else 0) := rfl
  constructor
  · intro hp
    have hq : (0:ℚ) < (p.tor_nodes : ℚ) := by exact_mod_cast hp
    have hk : (0:ℚ) < 100 / (p.tor_nodes : ℚ) := by positivity
    have hform : (CryptoAnalyzer.calculate_high_confidence_signal
        { current_data := some c, previous_data := some p }).percentage_change
        = (((c.tor_nodes : ℤ) - (p.tor_nodes : ℤ) : ℤ) : ℚ) * (100 / (p.tor_nodes : ℚ)) := by
      rw [hite, if_pos hp]; ring
    rw [ht, hform]
    refine ⟨?_, ?_, ?_⟩
    · rw [mul_pos_iff]
      constructor
      · rintro (⟨ha, -⟩ | ⟨-, hb⟩)
        · exact_mod_cast ha
        · linarith
      · intro h0
        exact Or.inl ⟨by exact_mod_cast h0, hk⟩
    · rw [mul_neg_iff]
      constructor
      · rintro (⟨-, hb⟩ | ⟨ha, -⟩)
        · linarith
        · exact_mod_cast ha
      · intro h0
        exact Or.inr ⟨by exact_mod_cast h0, hk⟩
    · rw [mul_eq_zero]
      constructor
      · rintro (h0 | h0)
        · exact_mod_cast h0
        · exact absurd h0 (by positivity)
      · intro h0
        exact Or.inl (by exact_mod_cast h0)
  · intro hp0
    rw [hite, if_neg (by omega)]

lemma hiTag_magnitudeFactor (tc : ℤ) :
    hiTag (magnitudeFactor tc) = true ↔ 50 < |tc| := by
  unfold magnitudeFactor
  split_ifs with h1 h2
  · exact iff_of_true (by decide) h1
  · exact iff_of_false (by decide) h1
  · exact iff_of_false (by decide) h1

lemma hiTag_percentageFactor (q : ℚ) :
    hiTag (percentageFactor q) = true ↔ 5 < |q| := by
  unfold percentageFactor
  split_ifs with h1 h2
  · exact iff_of_true (by decide) h1
  · exact iff_of_false (by decide) h1
  · exact iff_of_false (by decide) h1

lemma ite_one_mono {P Q : Prop} [Decidable P] [Decidable Q] (h : P → Q) :
    (if P then (1:ℕ) else 0) ≤ if Q then 1 else 0 := by
  split_ifs with hp hq
  · exact le_refl 1
  · exact absurd (h hp) hq
  · exact Nat.zero_le 1
  · exact le_refl 0

lemma himed_count_mag (tc : ℤ) :
    (if hiTag (magnitudeFactor tc) = true then (1:ℕ) else 0)
      + (if medTag (magnitudeFactor tc) = true then 1 else 0)
      = if 25 < |tc| then 1 else 0 := by
  unfold magnitudeFactor
  rcases lt_or_le 50 |tc| with h | h
  · rw [if_pos h, if_pos (by linarith : (25:ℤ) < |tc|)]
    decide
  · rcases lt_or_le 25 |tc| with h2 | h2
    · rw [if_neg (not_lt.mpr h), if_pos h2, if_pos h2]
      decide
    · rw [if_neg (not_lt.mpr h), if_neg (not_lt.mpr h2), if_neg (not_lt.mpr h2)]
      decide

lemma himed_count_pct (q : ℚ) :
    (if hiTag (percentageFactor q) = true then (1:ℕ) else 0)
      + (if medTag (percentageFactor q) = true then 1 else 0)
      = if 2.5 < |q| then 1 else 0 := by
  unfold percentageFactor
  rcases lt_or_le 5 |q| with h | h
  · rw [if_pos h, if_pos (by linarith : (2.5:ℚ) < |q|)]
    decide
  · rcases lt_or_le 2.5 |q| with h2 | h2
    · rw [if_neg (not_lt.mpr h), if_pos h2, if_pos h2]
      decide
    · rw [if_neg (not_lt.mpr h), if_neg (not_lt.mpr h2), if_neg (not_lt.mpr h2)]
      decide

lemma confRank_overall_mono {hc1 mc1 hc2 mc2 : ℕ} (h1 : hc1 ≤ hc2)
    (h2 : hc1 + mc1 ≤ hc2 + mc2) :
    confRank (overallConfidence hc1 mc1) ≤ confRank (overallConfidence hc2 mc2) := by
  unfold overallConfidence
  split_ifs <;> first | decide | (exfalso; omega)

/-- Claim C7: the aggregate confidence is monotone in `|tor_change|`: for
populated windows agreeing on `previous.tor_nodes` (positive),
`current.total_nodes` and `current.active_ratio`, a larger or equal
absolute Tor change never yields a lower confidence level, with the order
LOW < MEDIUM < HIGH read off through `confRank`. -/
theorem confidence_monotone_in_tor_change :
    ∀ (c1 p1 c2 p2 : NodeSnapshot),
      p1.tor_nodes = p2.tor_nodes →
      0 < p1.tor_nodes →
      c1.total_nodes = c2.total_nodes →
      c1.active_ratio = c2.active_ratio →
      |(c1.tor_nodes : ℤ) - (p1.tor_nodes : ℤ)| ≤ |(c2.tor_nodes : ℤ) - (p2.tor_nodes : ℤ)| →
      confRank ((CryptoAnalyzer.calculate_high_confidence_signal
          { current_data := some c1, previous_data := some p1 }).confidence)
        ≤ confRank ((CryptoAnalyzer.calculate_high_confidence_signal
          { current_data := some c2, previous_data := some p2 }).confidence) := by
  intro c1 p1 c2 p2 hptor hppos htot hratio habs
  rw [← hptor] at habs
  have e1 : (CryptoAnalyzer.calculate_high_confidence_signal
      { current_data := some c1, previous_data := some p1 }).confidence
      = overallConfidence
          (List.countP hiTag
            [magnitudeFactor ((c1.tor_nodes : ℤ) - (p1.tor_nodes : ℤ)),
             percentageFactor (if p1.tor_nodes > 0
               then ((((c1.tor_nodes : ℤ) - (p1.tor_nodes : ℤ) : ℤ) : ℚ) / (p1.tor_nodes : ℚ)) * 100
               else 0),
             networkFactor c1.total_nodes, ratioFactor c1.active_ratio])
          (List.countP medTag
            [magnitudeFactor ((c1.tor_nodes : ℤ) - (p1.tor_nodes : ℤ)),
             percentageFactor (if p1.tor_nodes > 0
               then ((((c1.tor_nodes : ℤ) - (p1.tor_nodes : ℤ) : ℤ) : ℚ) / (p1.tor_nodes : ℚ)) * 100
               else 0),
             networkFactor c1.total_nodes, ratioFactor c1.active_ratio]) := rfl
  have e2 : (CryptoAnalyzer.calculate_high_confidence_signal
      { current_data := some c2, previous_data := some p2 }).confidence
      = overallConfidence
          (List.countP hiTag
            [magnitudeFactor ((c2.tor_nodes : ℤ) - (p2.tor_nodes : ℤ)),
             percentageFactor (if p2.tor_nodes > 0
               then ((((c2.tor_nodes : ℤ) - (p2.tor_nodes : ℤ) : ℤ) : ℚ) / (p2.tor_nodes : ℚ)) * 100
               else 0),
             networkFactor c2.total_nodes, ratioFactor c2.active_ratio])
          (List.countP medTag
            [magnitudeFactor ((c2.tor_nodes : ℤ) - (p2.tor_nodes : ℤ)),
             percentageFactor (if p2.tor_nodes > 0
               then ((((c2.tor_nodes : ℤ) - (p2.tor_nodes : ℤ) : ℤ) : ℚ) / (p2.tor_nodes : ℚ)) * 100
               else 0),
             networkFactor c2.total_nodes, ratioFactor c2.active_ratio]) := rfl
  rw [e1, e2, ← hptor, ← htot, ← hratio]
  simp only [if_pos hppos]
  simp only [List.countP_cons, List.countP_nil]
  have habsq : |((((c1.tor_nodes : ℤ) - (p1.tor_nodes : ℤ) : ℤ) : ℚ))|
      ≤ |((((c2.tor_nodes : ℤ) - (p1.tor_nodes : ℤ) : ℤ) : ℚ))| := by exact_mod_cast habs
  have hpq : (0:ℚ) < (p1.tor_nodes : ℚ) := by exact_mod_cast hppos
  have hXabs : |((((c1.tor_nodes : ℤ) - (p1.tor_nodes : ℤ) : ℤ) : ℚ) / (p1.tor_nodes : ℚ)) * 100|
      ≤ |((((c2.tor_nodes : ℤ) - (p1.tor_nodes : ℤ) : ℤ) : ℚ) / (p1.tor_nodes : ℚ)) * 100| := by
    rw [abs_mul, abs_mul, abs_div, abs_div, abs_of_pos hpq,
      (by norm_num : |(100:ℚ)| = 100)]
    gcongr
  have s1 : (if hiTag (magnitudeFactor ((c1.tor_nodes : ℤ) - (p1.tor_nodes : ℤ))) = true
        then (1:ℕ) else 0)
      ≤ (if hiTag (magnitudeFactor ((c2.tor_nodes : ℤ) - (p1.tor_nodes : ℤ))) = true
        then 1 else 0) :=
    ite_one_mono (fun u => (hiTag_magnitudeFactor _).mpr
      (lt_of_lt_of_le ((hiTag_magnitudeFactor _).mp u) habs))
  have s2 : (if hiTag (percentageFactor
          (((((c1.tor_nodes : ℤ) - (p1.tor_nodes : ℤ) : ℤ) : ℚ) / (p1.tor_nodes : ℚ)) * 100))
          = true then (1:ℕ) else 0)
      ≤ (if hiTag (percentageFactor
          (((((c2.tor_nodes : ℤ) - (p1.tor_nodes : ℤ) : ℤ) : ℚ) / (p1.tor_nodes : ℚ)) * 100))
          = true then 1 else 0) :=
    ite_one_mono (fun u => (hiTag_percentageFactor _).mpr
      (lt_of_lt_of_le ((hiTag_percentageFactor _).mp u) hXabs))
  have g1 : (if hiTag (magnitudeFactor ((c1.tor_nodes : ℤ) - (p1.tor_nodes : ℤ))) = true
        then (1:ℕ) else 0)
      + (if medTag (magnitudeFactor ((c1.tor_nodes : ℤ) - (p1.tor_nodes : ℤ))) = true
        then 1 else 0)
      ≤ (if hiTag (magnitudeFactor ((c2.tor_nodes : ℤ) - (p1.tor_nodes : ℤ))) = true
        then 1 else 0)
      + (if medTag (magnitudeFactor ((c2.tor_nodes : ℤ) - (p1.tor_nodes : ℤ))) = true
        then 1 else 0) := by
    rw [himed_count_mag, himed_count_mag]
    exact ite_one_mono (fun u => lt_of_lt_of_le u habs)
  have g2 : (if hiTag (percentageFactor
          (((((c1.tor_nodes : ℤ) - (p1.tor_nodes : ℤ) : ℤ) : ℚ) / (p1.tor_nodes : ℚ)) * 100))
          = true then (1:ℕ) else 0)
      + (if medTag (percentageFactor
          (((((c1.tor_nodes : ℤ) - (p1.tor_nodes : ℤ) : ℤ) : ℚ) / (p1.tor_nodes : ℚ)) * 100))
          = true then 1 else 0)
      ≤ (if hiTag (percentageFactor
          (((((c2.tor_nodes : ℤ) - (p1.tor_nodes : ℤ) : ℤ) : ℚ) / (p1.tor_nodes : ℚ)) * 100))
          = true then 1 else 0)
      + (if medTag (percentageFactor
          (((((c2.tor_nodes : ℤ) - (p1.tor_nodes : ℤ) : ℤ) : ℚ) / (p1.tor_nodes : ℚ)) * 100))
          = true then 1 else 0) := by
    rw [himed_count_pct, himed_count_pct]
    exact ite_one_mono (fun u => lt_of_lt_of_le u hXabs)
  exact confRank_overall_mono (by linarith) (by linarith)

/-- Witness for claim C7: a flat Tor count (change 0) against the Scenario
A change of +60, over otherwise identical snapshots. -/
theorem confidence_monotone_in_tor_change_witness :
    confRank ((CryptoAnalyzer.calculate_high_confidence_signal
        { current_data := some scenarioFlat_current,
          previous_data := some scenarioA_previous }).confidence)
      ≤ confRank ((CryptoAnalyzer.calculate_high_confidence_signal
        { current_data := some scenarioA_current,
          previous_data := some scenarioA_previous }).confidence) :=
  confidence_monotone_in_tor_change scenarioFlat_current scenarioA_previous
    scenarioA_current scenarioA_previous rfl (by decide) rfl rfl (by decide)
